import Mathlib

/-!
Verification development for the `jupyter-asm-kernel` repository.

The repository has one Python module of interest,
`src/jupyter_asm_kernel/kernel.py`, containing two classes:

* `RealTimeSubprocess` — a subprocess wrapper whose `write_contents`
  method drains buffered stdout/stderr and implements the
  `<inputRequest>` interactive-input protocol;
* `ASMKernel` — the kernel: `_filter_magics` (directive parsing),
  `compile_code` / `link_code` (toolchain command construction),
  `do_compile_link_execute` (the compile → link → execute pipeline
  inside a `tempfile.TemporaryDirectory()` block), `do_execute`
  (the session dispatch boundary), `cleanup_files` / `do_shutdown`.

This file shallowly embeds those functions.  Python strings are Lean
`String`s; the Python string primitives the code relies on
(`str.splitlines`, `str.split(":", 2)`, `str.split()`, `str.strip`,
`str.lower`, `str.strip('"')`, the `re.findall` argument tokenizer) are
modelled character-by-character below.  Subprocess interaction is made
explicit: an environment record supplies the exit codes, buffered
output and injected spawn failures of each stage, and the pipeline
produces a trace of observable events (spawns, channel writes,
workspace directory creation/removal).  Exceptions are `Except` values;
a computation that would hang forever (the input-request loop fed only
empty lines) is `Option.none`.
-/

/-! ## Python string primitives -/

/-- ASCII whitespace as recognised by Python's `str.strip()` / `str.split()`. -/
def pyIsSpace (c : Char) : Bool :=
  c = ' ' || c = '\t' || c = '\n' || c = '\r' || c = '\x0b' || c = '\x0c'

/-- Python `str.strip()`: remove leading and trailing whitespace. -/
def pyStrip (s : String) : String :=
  String.mk (((s.toList.dropWhile pyIsSpace).reverse.dropWhile pyIsSpace).reverse)

/-- Python `str.lower()` (ASCII case folding suffices for the kernel's keys). -/
def pyLower (s : String) : String :=
  String.mk (s.toList.map Char.toLower)

/-- Characters at which Python's `str.splitlines` breaks a line. -/
def pyIsLineBreak (c : Char) : Bool :=
  c = '\n' || c = '\r' || c = '\x0b' || c = '\x0c' ||
  c = '\x1c' || c = '\x1d' || c = '\x1e' || c = '\u0085' ||
  c = '\u2028' || c = '\u2029'

/-- Worker for `pySplitlines`: `cur` is the current line reversed. -/
def pySplitlinesAux : List Char → List Char → List (List Char)
  | [], [] => []
  | [], cur => [cur.reverse]
  | '\r' :: '\n' :: rest, cur => cur.reverse :: pySplitlinesAux rest []
  | c :: rest, cur =>
    if pyIsLineBreak c then cur.reverse :: pySplitlinesAux rest []
    else pySplitlinesAux rest (c :: cur)

/-- Python `str.splitlines()`: no trailing empty line for a terminated text. -/
def pySplitlines (s : String) : List String :=
  (pySplitlinesAux s.toList []).map String.mk

/-- Split at the first occurrence of `sep`, if any. -/
def splitFirst (sep : Char) : List Char → Option (List Char × List Char)
  | [] => none
  | c :: rest =>
    if c = sep then some ([], rest)
    else (splitFirst sep rest).map (fun p => (c :: p.1, p.2))

/-- Python `s.split(":", 2)`: at most two splits, so one to three parts. -/
def pySplitColon2 (s : String) : List String :=
  match splitFirst ':' s.toList with
  | none => [s]
  | some (a, r) =>
    match splitFirst ':' r with
    | none => [String.mk a, String.mk r]
    | some (b, r2) => [String.mk a, String.mk b, String.mk r2]

/-- Worker for `pySplitWs`; `cur` is the current word reversed. -/
def pySplitWsAux : List Char → List Char → List (List Char)
  | [], [] => []
  | [], cur => [cur.reverse]
  | c :: rest, cur =>
    if pyIsSpace c then
      match cur with
      | [] => pySplitWsAux rest []
      | _ => cur.reverse :: pySplitWsAux rest []
    else pySplitWsAux rest (c :: cur)

/-- Python `str.split()` with no argument: whitespace runs, no empty parts. -/
def pySplitWs (s : String) : List String :=
  (pySplitWsAux s.toList []).map String.mk

/-- Python `value.strip('"')`: remove leading and trailing double quotes. -/
def pyStripQuotes (s : String) : String :=
  String.mk (((s.toList.dropWhile (· = '"')).reverse.dropWhile (· = '"')).reverse)

/-- Python `line.startswith(";%")`: the two-character directive marker test. -/
def isMagicLine (l : String) : Bool :=
  match l.toList with
  | ';' :: '%' :: _ => true
  | _ => false

/-- Python `line[2:]`. -/
def pyDrop2 (l : String) : String :=
  String.mk (l.toList.drop 2)

/-! ## The `args` tokenizer

`_filter_magics` tokenizes an `args` value with
`re.findall(r'(?:[^\s,"]|"(?:\\.|[^"])*")+', value)`.  We model the
regex engine directly: `quotedTail` matches the quoted alternative
after its opening quote (greedy with backtracking on `\\.` versus
`[^"]`), `matchUnit` matches one alternative of the group, repetition
and the `findall` scan are driven by fuel bounded by the input length
(each step consumes at least one character). -/

/-- Fuel-driven worker for `quotedTail`: one fuel unit per character of
the input suffices, since every recursive call shortens the input. -/
def quotedTailF : Nat → List Char → Option (List Char × List Char)
  | 0, _ => none
  | _, [] => none
  | _ + 1, '"' :: rest => some (['"'], rest)
  | fuel + 1, '\\' :: c :: rest =>
    match quotedTailF fuel rest with
    | some (t, r) => some ('\\' :: c :: t, r)
    | none =>
      match quotedTailF fuel (c :: rest) with
      | some (t, r) => some ('\\' :: t, r)
      | none => none
  | fuel + 1, c :: rest =>
    match quotedTailF fuel rest with
    | some (t, r) => some (c :: t, r)
    | none => none

/-- Match `(?:\\.|[^"])*"` greedily: the consumed characters (closing
quote included) and the rest, or `none` when no closing quote is reachable. -/
def quotedTail (cs : List Char) : Option (List Char × List Char) :=
  quotedTailF (cs.length + 1) cs

/-- One unit of the regex group: either a character outside
whitespace/comma/quote, or a full double-quoted segment. -/
def matchUnit (cs : List Char) : Option (List Char × List Char) :=
  match cs with
  | [] => none
  | c :: rest =>
    if pyIsSpace c || c = ',' then none
    else if c = '"' then (quotedTail rest).map (fun p => ('"' :: p.1, p.2))
    else some ([c], rest)

/-- Greedy `+` repetition of `matchUnit` (zero or more further units). -/
def extendUnits : Nat → List Char → List Char × List Char
  | 0, cs => ([], cs)
  | fuel + 1, cs =>
    match matchUnit cs with
    | none => ([], cs)
    | some (t, r) =>
      let p := extendUnits fuel r
      (t ++ p.1, p.2)

/-- The `re.findall` scan: try a match at each position, skip one
character on failure, continue after each match. -/
def findTokensAux : Nat → List Char → List (List Char)
  | 0, _ => []
  | _, [] => []
  | fuel + 1, c :: rest =>
    match matchUnit (c :: rest) with
    | none => findTokensAux fuel rest
    | some (t, r) =>
      let p := extendUnits (r.length) r
      (t ++ p.1) :: findTokensAux fuel p.2

/-- All tokens of `re.findall(r'(?:[^\s,"]|"(?:\\.|[^"])*")+', s)`. -/
def findallTokens (s : String) : List String :=
  (findTokensAux s.toList.length s.toList).map String.mk

/-! ## The directive parser (`ASMKernel._filter_magics`) -/

/-- The magic-directive configuration dictionary, with the defaults set
at the top of `_filter_magics`. -/
structure Magics where
  verbose : Bool
  compiler : String
  linker : String
  cflags : List String
  ldflags : List String
  args : List String
deriving Repr, DecidableEq

/-- The dictionary literal at the top of `_filter_magics`. -/
def defaultMagics : Magics :=
  { verbose := true, compiler := "yasm", linker := "gcc",
    cflags := [], ldflags := [], args := [] }

/-- The key dispatch of `_filter_magics`: `key` is already stripped and
lowercased, `value` is the raw remainder after the first colon. -/
def applyKey (m : Magics) (key value : String) : Magics :=
  if key = "ldflags" then { m with ldflags := m.ldflags ++ pySplitWs value }
  else if key = "cflags" then { m with cflags := m.cflags ++ pySplitWs value }
  else if key = "compiler" && (pyStrip value = "yasm" || pyStrip value = "nasm") then
    { m with compiler := pyStrip value }
  else if key = "linker" && (pyStrip value = "gcc" || pyStrip value = "ld") then
    { m with linker := pyStrip value }
  else if key = "verbose" && (pyStrip (pyLower value) = "false" || pyStrip (pyLower value) = "0") then
    { m with verbose := false }
  else if key = "args" then
    { m with args := m.args ++ (findallTokens value).map pyStripQuotes }
  else m

/-- `ValueError` message Python raises unpacking a 1-element list into two names. -/
def notEnoughValues : String :=
  "ValueError: not enough values to unpack (expected 2, got 1)"

/-- `ValueError` message Python raises unpacking a 3-element list into two names. -/
def tooManyValues : String :=
  "ValueError: too many values to unpack (expected 2)"

/-- Whether an error is a Python `ValueError` (the malformed-directive failure). -/
def isValueError (e : String) : Bool :=
  List.isPrefixOf "ValueError:".toList e.toList

/-- The per-line loop of `_filter_magics`: `m` is the accumulated
configuration, `acc` the accumulated residual code.  A line starting
with the directive marker `;%` has its remainder split on `:` with
maxsplit 2 and destructured into `key, value` — any part count other
than two raises a `ValueError`.  Any other line is appended to the
residual code followed by a newline. -/
def processLines : List String → Magics → String → Except String (Magics × String)
  | [], m, acc => .ok (m, acc)
  | l :: rest, m, acc =>
    if isMagicLine l then
      match pySplitColon2 (pyDrop2 l) with
      | [k, v] => processLines rest (applyKey m (pyStrip (pyLower (pyStrip k))) v) acc
      | [_] => .error notEnoughValues
      | _ => .error tooManyValues
    else processLines rest m (acc ++ l ++ "\n")

/-- `ASMKernel._filter_magics`: the configuration and residual code, or
the uncaught `ValueError` of a malformed directive line. -/
def filter_magics (code : String) : Except String (Magics × String) :=
  processLines (pySplitlines code) defaultMagics ""

/-! ## Substring search and replacement (Python `find` / `replace`) -/

/-- Python `s.find(pat) >= 0` over character lists: `pat` occurs in `cs`. -/
def containsSeq (pat cs : List Char) : Bool :=
  match cs with
  | [] => pat.isEmpty
  | _ :: rest => List.isPrefixOf pat cs || containsSeq pat rest

/-- Fuel-driven worker for `pyReplaceAll` (left-to-right, non-overlapping,
as Python `str.replace`); one fuel unit per input character suffices. -/
def replaceSeqF : Nat → List Char → List Char → List Char → List Char
  | 0, _, _, cs => cs
  | _, _, _, [] => []
  | fuel + 1, pat, repl, c :: rest =>
    if List.isPrefixOf pat (c :: rest) && !pat.isEmpty then
      repl ++ replaceSeqF fuel pat repl ((c :: rest).drop pat.length)
    else c :: replaceSeqF fuel pat repl rest

/-- Python `s.find(pat) >= 0`. -/
def pyContains (s pat : String) : Bool :=
  containsSeq pat.toList s.toList

/-- Python `s.replace(pat, repl)`: every occurrence replaced. -/
def pyReplaceAll (s pat repl : String) : String :=
  String.mk (replaceSeqF (s.toList.length + 1) pat.toList repl.toList s.toList)

/-! ## Observable events

A pipeline invocation is recorded as a trace of the externally visible
actions of `kernel.py`: subprocess spawns (`RealTimeSubprocess`
creation), the `pexpect.run` execution of the linked binary, writes to
the notebook's stdout/stderr channels, input requests and writes to a
subprocess's stdin, and creation/removal of the temporary workspace
directory. -/

inductive Event where
  | spawn (cmd : List String)
  | execRun (cmdline : String)
  | stdoutEv (s : String)
  | stderrEv (s : String)
  | stdinWrite (s : String)
  | inputReq
  | dirCreate
  | dirRemove
deriving Repr, DecidableEq

/-- The `RealTimeSubprocess.inputRequest` sentinel token. -/
def inputRequest : String := "<inputRequest>"

/-- One snapshot of a `RealTimeSubprocess`'s buffered output at a
`write_contents` call: the drained stderr bytes, the drained stdout
bytes (both already decoded), and the successive values the
`read_from_stdin` callback would return. -/
structure FlushData where
  stderrData : String
  stdoutData : String
  inputLines : List String
deriving Repr, DecidableEq

/-- Position and value of the first non-empty string in the list: the
`while(len(readLine) == 0)` retry loop of `write_contents` makes
`n + 1` callback calls when the first `n` returned lines are empty. -/
def firstNonEmptyIdx : List String → Option (Nat × String)
  | [] => none
  | s :: rest =>
    if s = "" then (firstNonEmptyIdx rest).map (fun p => (p.1 + 1, p.2))
    else some (0, s)

/-- `RealTimeSubprocess.write_contents`: forward buffered stderr, then
scan buffered stdout for the `<inputRequest>` sentinel.  Without the
sentinel the whole chunk goes to stdout.  With it, the sentinel is
stripped (every occurrence, via `str.replace`), the remaining text (if
non-empty) is forwarded to stdout first, then the frontend is asked for
input until a non-empty line arrives, a newline is appended and the
line is written to the subprocess's stdin.  `none` models the code
spinning forever when every callback answer is empty. -/
def write_contents (fd : FlushData) : Option (List Event) :=
  let errEvents := if fd.stderrData = "" then [] else [Event.stderrEv fd.stderrData]
  if fd.stdoutData = "" then some errEvents
  else
    if pyContains fd.stdoutData inputRequest then
      let contents := pyReplaceAll fd.stdoutData inputRequest ""
      let outEvents := if contents = "" then [] else [Event.stdoutEv contents]
      match firstNonEmptyIdx fd.inputLines with
      | none => none
      | some (n, line) =>
        some (errEvents ++ outEvents ++
          List.replicate (n + 1) Event.inputReq ++ [Event.stdinWrite (line ++ "\n")])
    else some (errEvents ++ [Event.stdoutEv fd.stdoutData])

/-- The events of a sequence of `write_contents` calls (the
`while pc.poll() is None: pc.write_contents()` loop plus the final
drain); `none` when any of them would hang. -/
def flushAll : List FlushData → Option (List Event)
  | [] => some []
  | fd :: rest =>
    match write_contents fd, flushAll rest with
    | some evs, some evs2 => some (evs ++ evs2)
    | _, _ => none

/-! ## The pipeline (`ASMKernel.do_compile_link_execute`) -/

/-- The reply dictionary built at each `return` of
`do_compile_link_execute` and in the handler of `do_execute`. -/
structure Outcome where
  status : String
  execution_count : Nat
  payload : List String
  user_expressions : List (String × String)
deriving Repr, DecidableEq

/-- `{'status': 'ok', 'execution_count': ec, 'payload': [], 'user_expressions': {}}`. -/
def okOutcome (ec : Nat) : Outcome :=
  { status := "ok", execution_count := ec, payload := [], user_expressions := [] }

/-- The behaviour of the external world during one pipeline invocation:
the temporary directory's name, and for each stage an optional injected
spawn/run failure, the buffered output drained by each flush, and the
exit code. -/
structure PipelineEnv where
  tmpdir : String
  spawnCompileErr : Option String
  compileFlushes : List FlushData
  compileExit : Int
  spawnLinkErr : Option String
  linkFlushes : List FlushData
  linkExit : Int
  execErr : Option String
  execOutput : String
  execExit : Int
deriving Repr, DecidableEq

/-- Python `repr` of a string (as it appears inside `str(dict)`). -/
def pyReprStr (s : String) : String := "'" ++ s ++ "'"

/-- Python `repr` of a list of strings. -/
def pyReprStrList (l : List String) : String :=
  "[" ++ ", ".intercalate (l.map pyReprStr) ++ "]"

/-- Python `repr` of a bool. -/
def pyReprBool : Bool → String
  | true => "True"
  | false => "False"

/-- Python `str(magics)`: the dict repr echoed by `_filter_magics` when verbose. -/
def magicsStr (m : Magics) : String :=
  "\x7b'verbose': " ++ pyReprBool m.verbose ++
  ", 'compiler': " ++ pyReprStr m.compiler ++
  ", 'linker': " ++ pyReprStr m.linker ++
  ", 'cflags': " ++ pyReprStrList m.cflags ++
  ", 'ldflags': " ++ pyReprStrList m.ldflags ++
  ", 'args': " ++ pyReprStrList m.args ++ "\x7d"

/-- A stderr diagnostic emitted only when the verbose flag is set. -/
def verboseEv (b : Bool) (msg : String) : List Event :=
  if b then [Event.stderrEv msg] else []

/-- The compile command vector built in `ASMKernel.compile_code`. -/
def compileCmd (m : Magics) (env : PipelineEnv) : List String :=
  m.compiler :: (m.cflags ++ ["-o", env.tmpdir ++ "/source.o", env.tmpdir ++ "/source.asm"])

/-- The link command vector built in `ASMKernel.link_code`. -/
def linkCmd (m : Magics) (env : PipelineEnv) : List String :=
  m.linker :: (m.ldflags ++ ["-o", env.tmpdir ++ "/source.run", env.tmpdir ++ "/source.o"])

/-- The command line handed to `pexpect.run` by the execute stage:
`" ".join([binary_file_name] + magics['args'])` — a single
space-joined string, not an argument vector. -/
def execCmdline (m : Magics) (env : PipelineEnv) : String :=
  " ".intercalate ((env.tmpdir ++ "/source.run") :: m.args)

/-- The `Compiling with:` banner of `compile_code`. -/
def compileBanner (m : Magics) (env : PipelineEnv) : String :=
  "[ASM kernel] Compiling with:  " ++ " ".intercalate (compileCmd m env) ++ " \n"

/-- The `Linking with:` banner of `link_code`. -/
def linkBanner (m : Magics) (env : PipelineEnv) : String :=
  "[ASM kernel] Linking with:    " ++ " ".intercalate (linkCmd m env) ++ " \n"

/-- The `Executing with:` banner of the execute stage. -/
def execBanner (m : Magics) (env : PipelineEnv) : String :=
  "[ASM kernel] Executing with:  " ++ execCmdline m env ++ " \n"

/-- The fail-fast diagnostic emitted when compilation exits non-zero. -/
def yasmDiag (env : PipelineEnv) : String :=
  "[C kernel] yasm exited with code " ++ toString env.compileExit ++
    ", the executable will not be executed"

/-- The fail-fast diagnostic emitted when linking exits non-zero. -/
def gccDiag (env : PipelineEnv) : String :=
  "[C kernel] gcc (linker) exited with code " ++ toString env.linkExit ++
    ", the executable will not be executed"

/-- The verbose note about the executed program's exit code. -/
def execExitNote (env : PipelineEnv) : String :=
  "[ASM kernel] Executable exited with code " ++ toString env.execExit ++ " \n"

/-- The execute stage of `do_compile_link_execute`: the optional
verbose banner, then `pexpect.run` on the joined command line, the
captured output forwarded to stdout, and the verbose exit-code note.
An injected `execErr` models `run` raising. -/
def execStage (m : Magics) (env : PipelineEnv) (ec : Nat) :
    List Event × Except String Outcome :=
  let ev := verboseEv m.verbose (execBanner m env)
  match env.execErr with
  | some e => (ev, .error e)
  | none =>
    (ev ++ [Event.execRun (execCmdline m env), Event.stdoutEv env.execOutput] ++
      verboseEv m.verbose (execExitNote env),
     .ok (okOutcome ec))

/-- The link stage: verbose banner, spawn, poll/flush loop, then either
the fail-fast diagnostic and an early `ok` return, or the execute
stage.  `none` models a hanging flush. -/
def linkStage (m : Magics) (env : PipelineEnv) (ec : Nat) :
    Option (List Event × Except String Outcome) :=
  let ev := verboseEv m.verbose (linkBanner m env)
  match env.spawnLinkErr with
  | some e => some (ev, .error e)
  | none =>
    match flushAll env.linkFlushes with
    | none => none
    | some fevs =>
      let ev2 := ev ++ [Event.spawn (linkCmd m env)] ++ fevs
      if env.linkExit ≠ 0 then
        some (ev2 ++ [Event.stderrEv (gccDiag env)], .ok (okOutcome ec))
      else
        match execStage m env ec with
        | (ev3, res) => some (ev2 ++ ev3, res)

/-- The compile stage: verbose banner, spawn, poll/flush loop, then
either the fail-fast diagnostic and an early `ok` return, or the link
stage. -/
def compileStage (m : Magics) (env : PipelineEnv) (ec : Nat) :
    Option (List Event × Except String Outcome) :=
  let ev := verboseEv m.verbose (compileBanner m env)
  match env.spawnCompileErr with
  | some e => some (ev, .error e)
  | none =>
    match flushAll env.compileFlushes with
    | none => none
    | some fevs =>
      let ev2 := ev ++ [Event.spawn (compileCmd m env)] ++ fevs
      if env.compileExit ≠ 0 then
        some (ev2 ++ [Event.stderrEv (yasmDiag env)], .ok (okOutcome ec))
      else
        match linkStage m env ec with
        | none => none
        | some (ev3, res) => some (ev2 ++ ev3, res)

/-- The events preceding the compile stage: the verbose configuration
echo of `_filter_magics`, the workspace creation, and the verbose
temporary-directory note. -/
def pipePre (m : Magics) (env : PipelineEnv) : List Event :=
  verboseEv m.verbose ("[ASM kernel] " ++ magicsStr m ++ "\n") ++
    [Event.dirCreate] ++
    verboseEv m.verbose ("[ASM kernel] created temporary directory " ++ env.tmpdir ++ " \n")

/-- `ASMKernel.do_compile_link_execute`: parse directives (a malformed
directive raises before the workspace exists), echo the configuration
when verbose, create the temporary workspace, run the stages, and — by
the `with tempfile.TemporaryDirectory()` block — remove the workspace
on every exit path, exceptional ones included.  The result pairs the
event trace with the returned reply or the propagated exception. -/
def do_compile_link_execute (code : String) (env : PipelineEnv) (ec : Nat) :
    Option (List Event × Except String Outcome) :=
  match filter_magics code with
  | .error e => some ([], .error e)
  | .ok (m, _) =>
    match compileStage m env ec with
    | none => none
    | some (ev, res) => some (pipePre m env ++ ev ++ [Event.dirRemove], res)

/-- `ASMKernel.do_execute`: run the pipeline inside `try/except`; any
exception is reported as a diagnostic on the error channel and replaced
by the same `ok` reply dictionary. -/
def do_execute (code : String) (env : PipelineEnv) (ec : Nat) :
    Option (List Event × Outcome) :=
  match do_compile_link_execute code env ec with
  | none => none
  | some (tr, .ok out) => some (tr, out)
  | some (tr, .error e) =>
    some (tr ++ [Event.stderrEv ("[ASM kernel] Error " ++ e ++ " \n")], okOutcome ec)

/-! ## The session (`ASMKernel.__init__`, `cleanup_files`, `do_shutdown`)

`ASMKernel.__init__` sets `self.files = []`.  No other method of the
class ever assigns to or appends to `self.files` — `do_execute` only
runs the pipeline, whose workspace is handled by
`tempfile.TemporaryDirectory`, and `cleanup_files` only reads the list.
`do_shutdown` calls `cleanup_files`, which removes each listed path
that exists. -/

/-- The per-session state: the `self.files` list. -/
structure SessionState where
  files : List String
deriving Repr, DecidableEq

/-- `ASMKernel.__init__`: `self.files = []`. -/
def initSession : SessionState := { files := [] }

/-- One front-end interaction with the session. -/
inductive SessionOp where
  | submit (code : String) (env : PipelineEnv)
  | shutdown (restart : Bool)
deriving Repr, DecidableEq

/-- `ASMKernel.cleanup_files`: the paths actually removed — every
tracked file that exists (`exf`) at cleanup time. -/
def cleanup_files (files : List String) (exf : String → Bool) : List String :=
  files.filter exf

/-- A sequence of session operations from a given state: the final
state and every path removed by `do_shutdown`'s cleanup.  `do_execute`
never touches `self.files` (its workspace is scoped inside
`do_compile_link_execute`), and `do_shutdown` only reads it. -/
def sessionRun (exf : String → Bool) : List SessionOp → SessionState → SessionState × List String
  | [], st => (st, [])
  | .submit _ _ :: ops, st => sessionRun exf ops st
  | .shutdown _ :: ops, st =>
    let removed := cleanup_files st.files exf
    let p := sessionRun exf ops st
    (p.1, removed ++ p.2)

deriving instance DecidableEq for Except

/-! ## Trace observations -/

/-- Whether an event is the spawning of a subprocess: a
`RealTimeSubprocess` creation or the `pexpect.run` execution. -/
def isSpawnEv : Event → Bool
  | .spawn _ => true
  | .execRun _ => true
  | _ => false

/-- The number of subprocesses spawned in a trace. -/
def spawnCount (tr : List Event) : Nat :=
  tr.countP (fun e => isSpawnEv e)

/-- Whether an event is pure channel traffic (stdout/stderr/stdin/input
request) — the only events a `write_contents` call can produce. -/
def isChannelEv : Event → Bool
  | .stdoutEv _ => true
  | .stderrEv _ => true
  | .stdinWrite _ => true
  | .inputReq => true
  | _ => false

/-- Whether the workspace directory exists after the trace: the last
directory event wins, initially absent. -/
def dirLive (tr : List Event) : Bool :=
  tr.foldl (fun b e =>
    match e with
    | .dirCreate => true
    | .dirRemove => false
    | _ => b) false

lemma dirLive_append_remove (xs : List Event) :
    dirLive (xs ++ [Event.dirRemove]) = false := by
  simp [dirLive, List.foldl_append]

lemma channel_not_spawn {e : Event} (h : isChannelEv e = true) : isSpawnEv e = false := by
  cases e <;> simp_all [isChannelEv, isSpawnEv]

lemma write_contents_channel {fd : FlushData} {evs : List Event}
    (h : write_contents fd = some evs) : ∀ e ∈ evs, isChannelEv e = true := by
  intro e he
  simp only [write_contents] at h
  split at h
  · cases h
    split at he <;> simp_all [isChannelEv]
  · split at h
    · split at h
      · exact absurd h (by simp)
      · cases h
        simp only [List.mem_append, List.mem_singleton] at he
        rcases he with ((he | he) | he) | he
        · split at he <;> simp_all [isChannelEv]
        · split at he <;> simp_all [isChannelEv]
        · rw [List.eq_of_mem_replicate he]; rfl
        · rw [he]; rfl
    · cases h
      simp only [List.mem_append, List.mem_singleton] at he
      rcases he with he | he
      · split at he <;> simp_all [isChannelEv]
      · rw [he]; rfl

lemma flushAll_channel {fds : List FlushData} {evs : List Event}
    (h : flushAll fds = some evs) : ∀ e ∈ evs, isChannelEv e = true := by
  induction fds generalizing evs with
  | nil => cases h; intro e he; cases he
  | cons fd rest ih =>
    intro e he
    simp only [flushAll] at h
    split at h
    · cases h
      rcases List.mem_append.1 he with h1 | h1
      · exact write_contents_channel (by assumption) e h1
      · exact ih (by assumption) e h1
    · cases h

lemma spawnCount_zero_of_channel {evs : List Event}
    (h : ∀ e ∈ evs, isChannelEv e = true) : spawnCount evs = 0 := by
  simp only [spawnCount, List.countP_eq_zero]
  intro e he
  simp [channel_not_spawn (h e he)]

lemma spawnCount_append (xs ys : List Event) :
    spawnCount (xs ++ ys) = spawnCount xs + spawnCount ys := by
  simp [spawnCount, List.countP_append]

lemma spawnCount_verboseEv (b : Bool) (s : String) :
    spawnCount (verboseEv b s) = 0 := by
  cases b <;> simp [verboseEv, spawnCount, isSpawnEv]

/-! ## Stage shape lemmas -/

lemma execStage_spawnErr {m : Magics} {env : PipelineEnv} {ec : Nat} {e : String}
    (he : env.execErr = some e) :
    execStage m env ec = (verboseEv m.verbose (execBanner m env), .error e) := by
  simp [execStage, he]

lemma execStage_success {m : Magics} {env : PipelineEnv} {ec : Nat}
    (he : env.execErr = none) :
    execStage m env ec =
      (verboseEv m.verbose (execBanner m env) ++
        [Event.execRun (execCmdline m env), Event.stdoutEv env.execOutput] ++
        verboseEv m.verbose (execExitNote env),
       .ok (okOutcome ec)) := by
  simp [execStage, he]

lemma linkStage_fail {m : Magics} {env : PipelineEnv} {ec : Nat} {ev : List Event}
    {res : Except String Outcome}
    (h : linkStage m env ec = some (ev, res))
    (hs : env.spawnLinkErr = none) (hx : env.linkExit ≠ 0) :
    ∃ fevs, flushAll env.linkFlushes = some fevs ∧
      ev = verboseEv m.verbose (linkBanner m env) ++ [Event.spawn (linkCmd m env)] ++
        fevs ++ [Event.stderrEv (gccDiag env)] ∧
      res = .ok (okOutcome ec) := by
  simp only [linkStage, hs] at h
  split at h
  · cases h
  · next fevs heq =>
    rw [if_pos hx] at h
    simp only [Option.some.injEq, Prod.mk.injEq] at h
    exact ⟨fevs, heq, h.1.symm, h.2.symm⟩

lemma linkStage_pass {m : Magics} {env : PipelineEnv} {ec : Nat} {ev : List Event}
    {res : Except String Outcome}
    (h : linkStage m env ec = some (ev, res))
    (hs : env.spawnLinkErr = none) (hx : env.linkExit = 0) :
    ∃ fevs, flushAll env.linkFlushes = some fevs ∧
      ev = verboseEv m.verbose (linkBanner m env) ++ [Event.spawn (linkCmd m env)] ++
        fevs ++ (execStage m env ec).1 ∧
      res = (execStage m env ec).2 := by
  simp only [linkStage, hs] at h
  split at h
  · cases h
  · next fevs heq =>
    rw [if_neg (by simp [hx])] at h
    revert h
    cases hex : execStage m env ec with
    | mk ev3 res3 =>
      intro h
      simp only [Option.some.injEq, Prod.mk.injEq] at h
      exact ⟨fevs, heq, by simpa using h.1.symm, by simpa using h.2.symm⟩

lemma compileStage_fail {m : Magics} {env : PipelineEnv} {ec : Nat} {ev : List Event}
    {res : Except String Outcome}
    (h : compileStage m env ec = some (ev, res))
    (hs : env.spawnCompileErr = none) (hx : env.compileExit ≠ 0) :
    ∃ fevs, flushAll env.compileFlushes = some fevs ∧
      ev = verboseEv m.verbose (compileBanner m env) ++ [Event.spawn (compileCmd m env)] ++
        fevs ++ [Event.stderrEv (yasmDiag env)] ∧
      res = .ok (okOutcome ec) := by
  simp only [compileStage, hs] at h
  split at h
  · cases h
  · next fevs heq =>
    rw [if_pos hx] at h
    simp only [Option.some.injEq, Prod.mk.injEq] at h
    exact ⟨fevs, heq, h.1.symm, h.2.symm⟩

lemma compileStage_pass {m : Magics} {env : PipelineEnv} {ec : Nat} {ev : List Event}
    {res : Except String Outcome}
    (h : compileStage m env ec = some (ev, res))
    (hs : env.spawnCompileErr = none) (hx : env.compileExit = 0) :
    ∃ fevs ev3, flushAll env.compileFlushes = some fevs ∧
      linkStage m env ec = some (ev3, res) ∧
      ev = verboseEv m.verbose (compileBanner m env) ++ [Event.spawn (compileCmd m env)] ++
        fevs ++ ev3 := by
  simp only [compileStage, hs] at h
  split at h
  · cases h
  · next fevs heq =>
    rw [if_neg (by simp [hx])] at h
    split at h
    · cases h
    · next ev3 res3 hl =>
      simp only [Option.some.injEq, Prod.mk.injEq] at h
      refine ⟨fevs, ev3, heq, ?_, h.1.symm⟩
      rw [hl, h.2]

lemma pipeline_shape {code : String} {env : PipelineEnv} {ec : Nat} {tr : List Event}
    {res : Except String Outcome} {m : Magics} {rest : String}
    (h : do_compile_link_execute code env ec = some (tr, res))
    (hm : filter_magics code = .ok (m, rest)) :
    ∃ ev, compileStage m env ec = some (ev, res) ∧
      tr = pipePre m env ++ ev ++ [Event.dirRemove] := by
  simp only [do_compile_link_execute, hm] at h
  split at h
  · cases h
  · next ev res0 hc =>
    simp only [Option.some.injEq, Prod.mk.injEq] at h
    refine ⟨ev, ?_, h.1.symm⟩
    rw [hc, h.2]

lemma linkStage_spawnErr {m : Magics} {env : PipelineEnv} {ec : Nat} {e : String}
    (hs : env.spawnLinkErr = some e) :
    linkStage m env ec = some (verboseEv m.verbose (linkBanner m env), .error e) := by
  simp [linkStage, hs]

lemma compileStage_spawnErr {m : Magics} {env : PipelineEnv} {ec : Nat} {e : String}
    (hs : env.spawnCompileErr = some e) :
    compileStage m env ec = some (verboseEv m.verbose (compileBanner m env), .error e) := by
  simp [compileStage, hs]

lemma execStage_ok {m : Magics} {env : PipelineEnv} {ec : Nat} {ev : List Event} {out : Outcome}
    (h : execStage m env ec = (ev, .ok out)) : out = okOutcome ec := by
  cases he : env.execErr with
  | some e =>
    rw [execStage_spawnErr he] at h
    exact absurd h (by simp)
  | none =>
    rw [execStage_success he] at h
    simp only [Prod.mk.injEq, Except.ok.injEq] at h
    exact h.2.symm

lemma linkStage_ok {m : Magics} {env : PipelineEnv} {ec : Nat} {ev : List Event} {out : Outcome}
    (h : linkStage m env ec = some (ev, .ok out)) : out = okOutcome ec := by
  cases hs : env.spawnLinkErr with
  | some e =>
    rw [linkStage_spawnErr hs] at h
    exact absurd h (by simp)
  | none =>
    by_cases hx : env.linkExit = 0
    · obtain ⟨fevs, _, _, hres⟩ := linkStage_pass h hs hx
      exact execStage_ok (Prod.ext rfl hres.symm : execStage m env ec = (_, .ok out))
    · obtain ⟨fevs, _, _, hres⟩ := linkStage_fail h hs hx
      simp only [Except.ok.injEq] at hres
      exact hres

lemma compileStage_ok {m : Magics} {env : PipelineEnv} {ec : Nat} {ev : List Event} {out : Outcome}
    (h : compileStage m env ec = some (ev, .ok out)) : out = okOutcome ec := by
  cases hs : env.spawnCompileErr with
  | some e =>
    rw [compileStage_spawnErr hs] at h
    exact absurd h (by simp)
  | none =>
    by_cases hx : env.compileExit = 0
    · obtain ⟨fevs, ev3, _, hl, _⟩ := compileStage_pass h hs hx
      exact linkStage_ok hl
    · obtain ⟨fevs, _, _, hres⟩ := compileStage_fail h hs hx
      simp only [Except.ok.injEq] at hres
      exact hres

lemma pipeline_ok {code : String} {env : PipelineEnv} {ec : Nat} {tr : List Event} {out : Outcome}
    (h : do_compile_link_execute code env ec = some (tr, .ok out)) : out = okOutcome ec := by
  cases hm : filter_magics code with
  | error e =>
    simp only [do_compile_link_execute, hm] at h
    exact absurd h (by simp)
  | ok p =>
    obtain ⟨m, rest⟩ := p
    obtain ⟨ev, hc, _⟩ := pipeline_shape h hm
    exact compileStage_ok hc

/-! ## The claims -/

/-- C8: for every pipeline invocation the temporary workspace directory
no longer exists when the invocation ends, on every exit path —
successful run, compile failure, link failure, and uncaught failure
raised inside the invocation (all of which are instances of the result
being `some`; a malformed directive raises before the directory is even
created). -/
theorem workspace_removed_all_paths (code : String) (env : PipelineEnv) (ec : Nat)
    (tr : List Event) (res : Except String Outcome)
    (h : do_compile_link_execute code env ec = some (tr, res)) :
    dirLive tr = false ∧ (Event.dirCreate ∈ tr → Event.dirRemove ∈ tr) := by
  cases hm : filter_magics code with
  | error e =>
    simp only [do_compile_link_execute, hm, Option.some.injEq, Prod.mk.injEq] at h
    rw [← h.1]
    exact ⟨rfl, by intro hc; cases hc⟩
  | ok p =>
    obtain ⟨m, rest⟩ := p
    obtain ⟨ev, _, htr⟩ := pipeline_shape h hm
    subst htr
    exact ⟨dirLive_append_remove _, by intro _; simp⟩

/-- Environment of a run whose three stages all succeed, with verbosity
off in the submitted code of the concrete examples below. -/
def envOkQuiet : PipelineEnv :=
  { tmpdir := "/tmp/t", spawnCompileErr := none, compileFlushes := [], compileExit := 0,
    spawnLinkErr := none, linkFlushes := [], linkExit := 0,
    execErr := none, execOutput := "out", execExit := 0 }

/-- Environment whose compile stage exits with code 1. -/
def envCompileFail : PipelineEnv := { envOkQuiet with compileExit := 1 }

/-- Environment whose execute stage raises an injected failure. -/
def envExecRaises : PipelineEnv := { envOkQuiet with execErr := some "OSError: exec failed" }

/-- C8 witness: at a run with an injected execute-stage failure the
workspace is still removed. -/
theorem workspace_removed_all_paths_witness :
    dirLive [Event.dirCreate,
      Event.spawn ["yasm", "-o", "/tmp/t/source.o", "/tmp/t/source.asm"],
      Event.spawn ["gcc", "-o", "/tmp/t/source.run", "/tmp/t/source.o"],
      Event.dirRemove] = false ∧
    (Event.dirCreate ∈ [Event.dirCreate,
      Event.spawn ["yasm", "-o", "/tmp/t/source.o", "/tmp/t/source.asm"],
      Event.spawn ["gcc", "-o", "/tmp/t/source.run", "/tmp/t/source.o"],
      Event.dirRemove] →
     Event.dirRemove ∈ [Event.dirCreate,
      Event.spawn ["yasm", "-o", "/tmp/t/source.o", "/tmp/t/source.asm"],
      Event.spawn ["gcc", "-o", "/tmp/t/source.run", "/tmp/t/source.o"],
      Event.dirRemove]) :=
  workspace_removed_all_paths ";%verbose: false" envExecRaises 1 _
    (.error "OSError: exec failed") (by decide)

/-- C3: `do_execute` always returns the `ok` reply record — status
`ok`, the session's execution count, empty payload, empty user
expressions — and never lets an exception escape; when the pipeline
raised, the reply is preceded by an `Error` diagnostic on the error
channel. -/
theorem do_execute_always_ok (code : String) (env : PipelineEnv) (ec : Nat)
    (tr : List Event) (out : Outcome)
    (h : do_execute code env ec = some (tr, out)) :
    out = okOutcome ec ∧
    (∀ tr0 e, do_compile_link_execute code env ec = some (tr0, .error e) →
      tr = tr0 ++ [Event.stderrEv ("[ASM kernel] Error " ++ e ++ " \n")]) := by
  simp only [do_execute] at h
  split at h
  · cases h
  · next tr0 o hp =>
    simp only [Option.some.injEq, Prod.mk.injEq] at h
    constructor
    · rw [← h.2]
      exact pipeline_ok hp
    · intro tr1 e1 h1
      rw [hp] at h1
      simp at h1
  · next tr0 e hp =>
    simp only [Option.some.injEq, Prod.mk.injEq] at h
    constructor
    · exact h.2.symm
    · intro tr1 e1 h1
      rw [hp] at h1
      simp only [Option.some.injEq, Prod.mk.injEq, Except.error.injEq] at h1
      rw [← h.1, ← h1.1, ← h1.2]

/-- C3 witness: a malformed directive raises inside the pipeline and
`do_execute` still reports the `ok` record after the diagnostic. -/
theorem do_execute_always_ok_witness :
    okOutcome 3 = okOutcome 3 ∧
    (∀ tr0 e, do_compile_link_execute ";%bad" envOkQuiet 3 = some (tr0, .error e) →
      [Event.stderrEv ("[ASM kernel] Error " ++ notEnoughValues ++ " \n")] =
        tr0 ++ [Event.stderrEv ("[ASM kernel] Error " ++ e ++ " \n")]) :=
  do_execute_always_ok ";%bad" envOkQuiet 3
    [Event.stderrEv ("[ASM kernel] Error " ++ notEnoughValues ++ " \n")]
    (okOutcome 3) (by decide)

/-- C9: starting from `__init__`'s empty `self.files`, no sequence of
submissions and shutdowns ever adds a tracked file, so every shutdown
cleanup removes nothing. -/
theorem session_files_always_empty (exf : String → Bool) (ops : List SessionOp) :
    (sessionRun exf ops initSession).1.files = [] ∧
    (sessionRun exf ops initSession).2 = [] := by
  have main : ∀ (ops : List SessionOp) (st : SessionState), st.files = [] →
      (sessionRun exf ops st).1.files = [] ∧ (sessionRun exf ops st).2 = [] := by
    intro ops
    induction ops with
    | nil =>
      intro st h
      exact ⟨h, rfl⟩
    | cons op rest ih =>
      intro st h
      cases op with
      | submit c e => simpa [sessionRun] using ih st h
      | shutdown r =>
        have hr := ih st h
        simp [sessionRun, cleanup_files, h, hr.1, hr.2]
  exact main ops initSession rfl

/-- The residual code accumulated by `_filter_magics`: each kept line
followed by `'\n'`, in order (the code's `actual_code += line + '\n'`). -/
def residualOf (ls : List String) : String :=
  ls.foldl (fun acc l => acc ++ l ++ "\n") ""

lemma processLines_no_magic :
    ∀ (ls : List String) (m : Magics) (acc : String),
      (∀ l ∈ ls, isMagicLine l = false) →
      processLines ls m acc = .ok (m, ls.foldl (fun a l => a ++ l ++ "\n") acc) := by
  intro ls
  induction ls with
  | nil => intro m acc _; rfl
  | cons hd rest ih =>
    intro m acc h
    have hhd : isMagicLine hd = false := h hd (by simp)
    simp only [processLines, hhd, Bool.false_eq_true, if_false, List.foldl_cons]
    exact ih m (acc ++ hd ++ "\n") (fun l hl => h l (by simp [hl]))

/-- C4 counterexample: on the single-line text `"abc"` (no directive
lines, no trailing newline) the parser returns default configuration
but residual code `"abc\n"`, which differs from the input — the claim
that the residual equals the input is false. -/
theorem filter_magics_residual_counterexample :
    filter_magics "abc" = .ok (defaultMagics, "abc\n") ∧ ("abc\n" : String) ≠ "abc" := by
  constructor
  · decide
  · decide

/-- C4 (amended): for every source text with zero directive lines the
configuration equals the defaults and the residual code is the input's
lines each re-terminated with a newline — equal to the input itself
exactly when the input is a sequence of `'\n'`-terminated lines, but
not in general (see the counterexample). -/
theorem filter_magics_no_directives_amended (code : String)
    (h : ∀ l ∈ pySplitlines code, isMagicLine l = false) :
    filter_magics code = .ok (defaultMagics, residualOf (pySplitlines code)) :=
  processLines_no_magic (pySplitlines code) defaultMagics "" h

/-- C4 witness: a newline-terminated directive-free text, on which the
residual is the input itself. -/
theorem filter_magics_no_directives_witness :
    filter_magics "mov eax, 1\nret\n" =
      .ok (defaultMagics, residualOf (pySplitlines "mov eax, 1\nret\n")) :=
  filter_magics_no_directives_amended "mov eax, 1\nret\n" (by decide)

/-- C7: tokenizing the `args` value `"a b" c` yields `["a b", "c"]` —
the quoted segment is one token with its quotes stripped, the unquoted
word a second — and a full `args` directive line appends exactly those
two tokens, in order, to the argument list. -/
theorem args_tokenization_quoted :
    (findallTokens " \"a b\" c").map pyStripQuotes = ["a b", "c"] ∧
    (findallTokens "\"a b\" c").map pyStripQuotes = ["a b", "c"] ∧
    filter_magics ";%args: \"a b\" c" =
      .ok ({ defaultMagics with args := ["a b", "c"] }, "") := by
  refine ⟨by decide, by decide, by decide⟩

/-! ## Malformed directive lines (C5, C10) -/

/-- Number of key/value separators in a string. -/
def colonCount (s : String) : Nat :=
  s.toList.count ':'

lemma splitFirst_eq_none_iff {sep : Char} :
    ∀ cs : List Char, splitFirst sep cs = none ↔ sep ∉ cs := by
  intro cs
  induction cs with
  | nil => simp [splitFirst]
  | cons c rest ih =>
    by_cases hc : c = sep
    · subst hc
      simp [splitFirst]
    · have hcs : ¬sep = c := fun he => hc he.symm
      simp [splitFirst, hc, ih, hcs]

lemma splitFirst_some_spec {sep : Char} :
    ∀ {cs a r : List Char}, splitFirst sep cs = some (a, r) →
      cs = a ++ sep :: r ∧ sep ∉ a := by
  intro cs
  induction cs with
  | nil => intro a r h; cases h
  | cons c rest ih =>
    intro a r h
    simp only [splitFirst] at h
    by_cases hc : c = sep
    · rw [if_pos hc] at h
      simp only [Option.some.injEq, Prod.mk.injEq] at h
      subst hc
      rw [← h.1, ← h.2]
      exact ⟨rfl, by simp⟩
    · rw [if_neg hc] at h
      cases hs : splitFirst sep rest with
      | none => rw [hs] at h; cases h
      | some p =>
        rw [hs] at h
        cases p with
        | mk a0 r0 =>
          simp only [Option.map_some', Option.some.injEq, Prod.mk.injEq] at h
          obtain ⟨ha, hr⟩ := h
          have hrec := ih hs
          subst hr
          rw [← ha]
          constructor
          · rw [hrec.1]
            rfl
          · intro hm
            rcases List.mem_cons.1 hm with h1 | h1
            · exact hc h1.symm
            · exact hrec.2 h1

lemma pySplitColon2_no_sep {s : String} (h : colonCount s = 0) :
    pySplitColon2 s = [s] := by
  have hnm : ':' ∉ s.toList := List.count_eq_zero.1 h
  unfold pySplitColon2
  rw [(splitFirst_eq_none_iff s.toList).2 hnm]

lemma pySplitColon2_two_sep {s : String} (h : 2 ≤ colonCount s) :
    (pySplitColon2 s).length = 3 := by
  cases h1 : splitFirst ':' s.toList with
  | none =>
    have hnm := (splitFirst_eq_none_iff s.toList).1 h1
    rw [colonCount, List.count_eq_zero.2 hnm] at h
    omega
  | some p =>
    cases p with
    | mk a r =>
      obtain ⟨hcs, hna⟩ := splitFirst_some_spec h1
      have hcount : colonCount s = r.count ':' + 1 := by
        rw [colonCount, hcs]
        simp [List.count_append, List.count_eq_zero.2 hna]
      cases h2 : splitFirst ':' r with
      | none =>
        have hnr := (splitFirst_eq_none_iff r).1 h2
        rw [List.count_eq_zero.2 hnr] at hcount
        omega
      | some q =>
        cases q with
        | mk b r2 =>
          have h1d : splitFirst ':' s.data = some (a, r) := h1
          simp [pySplitColon2, h1d, h2]

lemma processLines_malformed :
    ∀ (ls : List String) (m : Magics) (acc : String) (l : String),
      l ∈ ls → isMagicLine l = true → (pySplitColon2 (pyDrop2 l)).length ≠ 2 →
      ∃ e, processLines ls m acc = .error e ∧ isValueError e = true := by
  intro ls
  induction ls with
  | nil => intro m acc l hl; cases hl
  | cons hd rest ih =>
    intro m acc l hl hmag hlen
    by_cases hmh : isMagicLine hd = true
    · cases hsp : pySplitColon2 (pyDrop2 hd) with
      | nil =>
        exact ⟨tooManyValues, by simp [processLines, hmh, hsp], by decide⟩
      | cons x xs =>
        cases xs with
        | nil =>
          exact ⟨notEnoughValues, by simp [processLines, hmh, hsp], by decide⟩
        | cons y ys =>
          cases ys with
          | nil =>
            have hlr : l ∈ rest := by
              rcases List.mem_cons.1 hl with h1 | h1
              · exfalso
                apply hlen
                rw [h1, hsp]
                rfl
              · exact h1
            obtain ⟨e, he, hv⟩ := ih (applyKey m (pyStrip (pyLower (pyStrip x))) y) acc l hlr hmag hlen
            exact ⟨e, by simp [processLines, hmh, hsp, he], hv⟩
          | cons z zs =>
            exact ⟨tooManyValues, by simp [processLines, hmh, hsp], by decide⟩
    · have hlr : l ∈ rest := by
        rcases List.mem_cons.1 hl with h1 | h1
        · exact absurd (h1 ▸ hmag) hmh
        · exact h1
      obtain ⟨e, he, hv⟩ := ih m (acc ++ hd ++ "\n") l hlr hmag hlen
      refine ⟨e, ?_, hv⟩
      simpa [processLines, hmh] using he

/-- C5: a directive line whose remainder holds no `:` separator makes
`_filter_magics` raise a `ValueError` (rather than skipping the line);
the whole submission is aborted — no stage is run, no subprocess is
spawned — and `do_execute` catches the failure at the session boundary,
emits the diagnostic and still replies `ok`. -/
theorem malformed_directive_raises (code : String) (env : PipelineEnv) (ec : Nat)
    (l : String) (hmem : l ∈ pySplitlines code) (hdir : isMagicLine l = true)
    (hnc : colonCount (pyDrop2 l) = 0) :
    ∃ e, filter_magics code = .error e ∧ isValueError e = true ∧
      do_compile_link_execute code env ec = some ([], .error e) ∧
      spawnCount [] = 0 ∧
      do_execute code env ec =
        some ([Event.stderrEv ("[ASM kernel] Error " ++ e ++ " \n")], okOutcome ec) := by
  have hlen : (pySplitColon2 (pyDrop2 l)).length ≠ 2 := by
    rw [pySplitColon2_no_sep hnc]
    simp
  obtain ⟨e, he, hv⟩ := processLines_malformed (pySplitlines code) defaultMagics "" l hmem hdir hlen
  have hf : filter_magics code = .error e := he
  refine ⟨e, hf, hv, ?_, rfl, ?_⟩
  · simp [do_compile_link_execute, hf]
  · simp [do_execute, do_compile_link_execute, hf]

/-- C5 witness: the single-line submission `;%noseparator`. -/
theorem malformed_directive_raises_witness :
    ∃ e, filter_magics ";%noseparator" = .error e ∧ isValueError e = true ∧
      do_compile_link_execute ";%noseparator" envOkQuiet 7 = some ([], .error e) ∧
      spawnCount [] = 0 ∧
      do_execute ";%noseparator" envOkQuiet 7 =
        some ([Event.stderrEv ("[ASM kernel] Error " ++ e ++ " \n")], okOutcome 7) :=
  malformed_directive_raises ";%noseparator" envOkQuiet 7 ";%noseparator"
    (by decide) (by decide) (by decide)

/-- C10: a directive line whose remainder holds two or more `:`
separators splits (with maxsplit 2) into three parts, which cannot be
destructured into `key, value`: `_filter_magics` raises the same kind
of uncaught `ValueError` as for a separator-less line, aborting the
submission, which the session boundary converts into a diagnostic plus
an `ok` reply. -/
theorem multi_separator_directive_raises (code : String) (env : PipelineEnv) (ec : Nat)
    (l : String) (hmem : l ∈ pySplitlines code) (hdir : isMagicLine l = true)
    (hmc : 2 ≤ colonCount (pyDrop2 l)) :
    (pySplitColon2 (pyDrop2 l)).length = 3 ∧
    ∃ e, filter_magics code = .error e ∧ isValueError e = true ∧
      do_compile_link_execute code env ec = some ([], .error e) ∧
      do_execute code env ec =
        some ([Event.stderrEv ("[ASM kernel] Error " ++ e ++ " \n")], okOutcome ec) := by
  have hlen3 : (pySplitColon2 (pyDrop2 l)).length = 3 := pySplitColon2_two_sep hmc
  have hlen : (pySplitColon2 (pyDrop2 l)).length ≠ 2 := by omega
  obtain ⟨e, he, hv⟩ := processLines_malformed (pySplitlines code) defaultMagics "" l hmem hdir hlen
  have hf : filter_magics code = .error e := he
  refine ⟨hlen3, e, hf, hv, ?_, ?_⟩
  · simp [do_compile_link_execute, hf]
  · simp [do_execute, do_compile_link_execute, hf]

/-- C10 witness: the directive line `;%args: a: b`, whose remainder
`args: a: b` holds two separators. -/
theorem multi_separator_directive_raises_witness :
    (pySplitColon2 (pyDrop2 ";%args: a: b")).length = 3 ∧
    ∃ e, filter_magics ";%args: a: b" = .error e ∧ isValueError e = true ∧
      do_compile_link_execute ";%args: a: b" envOkQuiet 2 = some ([], .error e) ∧
      do_execute ";%args: a: b" envOkQuiet 2 =
        some ([Event.stderrEv ("[ASM kernel] Error " ++ e ++ " \n")], okOutcome 2) :=
  multi_separator_directive_raises ";%args: a: b" envOkQuiet 2 ";%args: a: b"
    (by decide) (by decide) (by decide)

/-! ## Spawn and execute counting -/

/-- Whether an event is the `pexpect.run` execution of the built binary. -/
def isExecEv : Event → Bool
  | .execRun _ => true
  | _ => false

/-- The number of execute-stage runs in a trace. -/
def execCount (tr : List Event) : Nat :=
  tr.countP (fun e => isExecEv e)

lemma spawnCount_pipePre (m : Magics) (env : PipelineEnv) :
    spawnCount (pipePre m env) = 0 := by
  cases hv : m.verbose <;> simp [pipePre, verboseEv, hv, spawnCount, isSpawnEv]

lemma spawnCount_spawn (c : List String) : spawnCount [Event.spawn c] = 1 := by
  simp [spawnCount, isSpawnEv]

lemma spawnCount_execRun (s : String) : spawnCount [Event.execRun s] = 1 := by
  simp [spawnCount, isSpawnEv]

lemma spawnCount_stderr (s : String) : spawnCount [Event.stderrEv s] = 0 := by
  simp [spawnCount, isSpawnEv]

lemma spawnCount_stdout (s : String) : spawnCount [Event.stdoutEv s] = 0 := by
  simp [spawnCount, isSpawnEv]

lemma spawnCount_dirRemove : spawnCount [Event.dirRemove] = 0 := by
  simp [spawnCount, isSpawnEv]

lemma execCount_append (xs ys : List Event) :
    execCount (xs ++ ys) = execCount xs + execCount ys := by
  simp [execCount, List.countP_append]

lemma execCount_verboseEv (b : Bool) (s : String) : execCount (verboseEv b s) = 0 := by
  cases b <;> simp [verboseEv, execCount, isExecEv]

lemma execCount_pipePre (m : Magics) (env : PipelineEnv) :
    execCount (pipePre m env) = 0 := by
  cases hv : m.verbose <;> simp [pipePre, verboseEv, hv, execCount, isExecEv]

lemma execCount_spawn (c : List String) : execCount [Event.spawn c] = 0 := by
  simp [execCount, isExecEv]

lemma execCount_execRun (s : String) : execCount [Event.execRun s] = 1 := by
  simp [execCount, isExecEv]

lemma execCount_stderr (s : String) : execCount [Event.stderrEv s] = 0 := by
  simp [execCount, isExecEv]

lemma execCount_stdout (s : String) : execCount [Event.stdoutEv s] = 0 := by
  simp [execCount, isExecEv]

lemma execCount_dirRemove : execCount [Event.dirRemove] = 0 := by
  simp [execCount, isExecEv]

lemma execCount_zero_of_channel {evs : List Event}
    (h : ∀ e ∈ evs, isChannelEv e = true) : execCount evs = 0 := by
  simp only [execCount, List.countP_eq_zero]
  intro e he
  have := h e he
  cases e <;> simp_all [isChannelEv, isExecEv]

/-- C1: with the compile spawn succeeding, a non-zero compile exit
yields a trace with exactly one subprocess spawn (the compile command)
and no execute run, containing the `yasm exited` diagnostic, and the
invocation returns the `ok` reply early; a zero compile exit followed
by a non-zero link exit yields exactly two spawns (compile and link
commands), still no execute run, the `gcc (linker) exited` diagnostic,
and the early `ok` reply. -/
theorem pipeline_fail_fast (code : String) (env : PipelineEnv) (ec : Nat)
    (tr : List Event) (res : Except String Outcome) (m : Magics) (rest : String)
    (h : do_compile_link_execute code env ec = some (tr, res))
    (hm : filter_magics code = .ok (m, rest))
    (hs : env.spawnCompileErr = none) :
    (env.compileExit ≠ 0 →
      spawnCount tr = 1 ∧ execCount tr = 0 ∧
      Event.spawn (compileCmd m env) ∈ tr ∧
      Event.stderrEv (yasmDiag env) ∈ tr ∧
      res = .ok (okOutcome ec)) ∧
    (env.compileExit = 0 → env.spawnLinkErr = none → env.linkExit ≠ 0 →
      spawnCount tr = 2 ∧ execCount tr = 0 ∧
      Event.spawn (compileCmd m env) ∈ tr ∧
      Event.spawn (linkCmd m env) ∈ tr ∧
      Event.stderrEv (gccDiag env) ∈ tr ∧
      res = .ok (okOutcome ec)) := by
  obtain ⟨ev, hc, htr⟩ := pipeline_shape h hm
  subst htr
  constructor
  · intro hx
    obtain ⟨fevs, hf, hev, hres⟩ := compileStage_fail hc hs hx
    subst hev
    have hzs : spawnCount fevs = 0 := spawnCount_zero_of_channel (flushAll_channel hf)
    have hze : execCount fevs = 0 := execCount_zero_of_channel (flushAll_channel hf)
    refine ⟨?_, ?_, by simp, by simp, hres⟩
    · simp only [spawnCount_append, spawnCount_pipePre, spawnCount_verboseEv,
        spawnCount_spawn, spawnCount_stderr, spawnCount_dirRemove, hzs]
    · simp only [execCount_append, execCount_pipePre, execCount_verboseEv,
        execCount_spawn, execCount_stderr, execCount_dirRemove, hze]
  · intro hx hsl hlx
    obtain ⟨fevs, ev3, hf, hl, hev⟩ := compileStage_pass hc hs hx
    obtain ⟨fevs2, hf2, hev3, hres⟩ := linkStage_fail hl hsl hlx
    subst hev
    subst hev3
    have hzs : spawnCount fevs = 0 := spawnCount_zero_of_channel (flushAll_channel hf)
    have hze : execCount fevs = 0 := execCount_zero_of_channel (flushAll_channel hf)
    have hzs2 : spawnCount fevs2 = 0 := spawnCount_zero_of_channel (flushAll_channel hf2)
    have hze2 : execCount fevs2 = 0 := execCount_zero_of_channel (flushAll_channel hf2)
    refine ⟨?_, ?_, by simp, by simp, by simp, hres⟩
    · simp only [spawnCount_append, spawnCount_pipePre, spawnCount_verboseEv,
        spawnCount_spawn, spawnCount_stderr, spawnCount_dirRemove, hzs, hzs2]
    · simp only [execCount_append, execCount_pipePre, execCount_verboseEv,
        execCount_spawn, execCount_stderr, execCount_dirRemove, hze, hze2]

/-- C1 witness: a compile failure (exit 1) and a link failure (exit 1)
at concrete runs with verbosity off. -/
theorem pipeline_fail_fast_witness :
    (spawnCount [Event.dirCreate,
        Event.spawn ["yasm", "-o", "/tmp/t/source.o", "/tmp/t/source.asm"],
        Event.stderrEv "[C kernel] yasm exited with code 1, the executable will not be executed",
        Event.dirRemove] = 1 ∧
      execCount [Event.dirCreate,
        Event.spawn ["yasm", "-o", "/tmp/t/source.o", "/tmp/t/source.asm"],
        Event.stderrEv "[C kernel] yasm exited with code 1, the executable will not be executed",
        Event.dirRemove] = 0 ∧
      Event.spawn (compileCmd { defaultMagics with verbose := false } envCompileFail) ∈
        [Event.dirCreate,
          Event.spawn ["yasm", "-o", "/tmp/t/source.o", "/tmp/t/source.asm"],
          Event.stderrEv "[C kernel] yasm exited with code 1, the executable will not be executed",
          Event.dirRemove] ∧
      Event.stderrEv (yasmDiag envCompileFail) ∈
        [Event.dirCreate,
          Event.spawn ["yasm", "-o", "/tmp/t/source.o", "/tmp/t/source.asm"],
          Event.stderrEv "[C kernel] yasm exited with code 1, the executable will not be executed",
          Event.dirRemove] ∧
      (.ok (okOutcome 1) : Except String Outcome) = .ok (okOutcome 1)) :=
  (pipeline_fail_fast ";%verbose: false" envCompileFail 1
    [Event.dirCreate,
      Event.spawn ["yasm", "-o", "/tmp/t/source.o", "/tmp/t/source.asm"],
      Event.stderrEv "[C kernel] yasm exited with code 1, the executable will not be executed",
      Event.dirRemove]
    (.ok (okOutcome 1)) { defaultMagics with verbose := false } ""
    (by decide) (by decide) rfl).1 (by decide)

lemma execCount_run_out (c o : String) :
    execCount [Event.execRun c, Event.stdoutEv o] = 1 := by
  simp [execCount, isExecEv]

/-- C6 counterexample: the argument vectors `["a b"]` (one argument
holding a space) and `["a", "b"]` (two arguments) are different, yet
the two submissions configuring them produce byte-for-byte identical
pipeline runs, because the execute stage joins `[binary_file_name] +
args` with spaces into one `pexpect.run` command line.  No stage of the
code receives the arguments as distinct vector elements, so an argument
containing whitespace is not passed intact. -/
theorem execute_joined_cmdline_counterexample :
    filter_magics ";%verbose: false\n;%args: \"a b\"" =
      .ok ({ defaultMagics with verbose := false, args := ["a b"] }, "") ∧
    filter_magics ";%verbose: false\n;%args: a b" =
      .ok ({ defaultMagics with verbose := false, args := ["a", "b"] }, "") ∧
    (["a b"] : List String) ≠ ["a", "b"] ∧
    execCmdline { defaultMagics with verbose := false, args := ["a b"] } envOkQuiet =
      execCmdline { defaultMagics with verbose := false, args := ["a", "b"] } envOkQuiet ∧
    do_compile_link_execute ";%verbose: false\n;%args: \"a b\"" envOkQuiet 1 =
      do_compile_link_execute ";%verbose: false\n;%args: a b" envOkQuiet 1 := by
  refine ⟨by decide, by decide, by decide, by decide, by decide⟩

/-- C6 (amended): on a run whose compile and link stages exit 0 and
whose execution does not raise, the execute stage performs exactly one
program run, and it is invoked with the single command-line string
obtained by space-joining the binary path and the argument list — not
with an argument vector of distinct elements. -/
theorem execute_joined_cmdline (code : String) (env : PipelineEnv) (ec : Nat)
    (tr : List Event) (res : Except String Outcome) (m : Magics) (rest : String)
    (h : do_compile_link_execute code env ec = some (tr, res))
    (hm : filter_magics code = .ok (m, rest))
    (hs1 : env.spawnCompileErr = none) (hx1 : env.compileExit = 0)
    (hs2 : env.spawnLinkErr = none) (hx2 : env.linkExit = 0)
    (hs3 : env.execErr = none) :
    execCount tr = 1 ∧
    Event.execRun (execCmdline m env) ∈ tr ∧
    execCmdline m env = " ".intercalate ((env.tmpdir ++ "/source.run") :: m.args) := by
  obtain ⟨ev, hc, htr⟩ := pipeline_shape h hm
  subst htr
  obtain ⟨fevs, ev3, hf, hl, hev⟩ := compileStage_pass hc hs1 hx1
  obtain ⟨fevs2, hf2, hev3, hres⟩ := linkStage_pass hl hs2 hx2
  simp only [execStage_success hs3] at hev3
  subst hev
  subst hev3
  have hze : execCount fevs = 0 := execCount_zero_of_channel (flushAll_channel hf)
  have hze2 : execCount fevs2 = 0 := execCount_zero_of_channel (flushAll_channel hf2)
  refine ⟨?_, by simp, rfl⟩
  simp only [execCount_append, execCount_pipePre, execCount_verboseEv,
    execCount_spawn, execCount_run_out, execCount_dirRemove, hze, hze2]

/-- C6 witness: the quiet all-stages-succeed run. -/
theorem execute_joined_cmdline_witness :
    execCount [Event.dirCreate,
      Event.spawn ["yasm", "-o", "/tmp/t/source.o", "/tmp/t/source.asm"],
      Event.spawn ["gcc", "-o", "/tmp/t/source.run", "/tmp/t/source.o"],
      Event.execRun "/tmp/t/source.run", Event.stdoutEv "out", Event.dirRemove] = 1 ∧
    Event.execRun (execCmdline { defaultMagics with verbose := false } envOkQuiet) ∈
      [Event.dirCreate,
        Event.spawn ["yasm", "-o", "/tmp/t/source.o", "/tmp/t/source.asm"],
        Event.spawn ["gcc", "-o", "/tmp/t/source.run", "/tmp/t/source.o"],
        Event.execRun "/tmp/t/source.run", Event.stdoutEv "out", Event.dirRemove] ∧
    execCmdline { defaultMagics with verbose := false } envOkQuiet =
      " ".intercalate ((envOkQuiet.tmpdir ++ "/source.run") ::
        ({ defaultMagics with verbose := false } : Magics).args) :=
  execute_joined_cmdline ";%verbose: false" envOkQuiet 1
    [Event.dirCreate,
      Event.spawn ["yasm", "-o", "/tmp/t/source.o", "/tmp/t/source.asm"],
      Event.spawn ["gcc", "-o", "/tmp/t/source.run", "/tmp/t/source.o"],
      Event.execRun "/tmp/t/source.run", Event.stdoutEv "out", Event.dirRemove]
    (.ok (okOutcome 1)) { defaultMagics with verbose := false } ""
    (by decide) (by decide) rfl rfl rfl rfl rfl

lemma firstNonEmptyIdx_empties (pre : List String) (h : ∀ s ∈ pre, s = "")
    (line : String) (hl : ¬line = "") (rest : List String) :
    firstNonEmptyIdx (pre ++ line :: rest) = some (pre.length, line) := by
  induction pre with
  | nil => simp [firstNonEmptyIdx, hl]
  | cons s ps ih =>
    have hs : s = "" := h s (by simp)
    subst hs
    have := ih (fun t ht => h t (by simp [ht]))
    simp [firstNonEmptyIdx, this]

/-- C2: flushing a Streaming Process whose stderr buffer is empty and
whose stdout buffer holds exactly `"hello<inputRequest>"` while the
input callback returns some empty lines and then `"42"` forwards
`"hello"` to the stdout channel first, re-requests input once per empty
line plus once for the final answer, then writes exactly `"42\n"` to
the subprocess's stdin; the sentinel itself never reaches stdout. -/
theorem write_contents_input_request (pre rest : List String)
    (hpre : ∀ s ∈ pre, s = "") :
    write_contents ⟨"", "hello<inputRequest>", pre ++ "42" :: rest⟩ =
      some (Event.stdoutEv "hello" ::
        (List.replicate (pre.length + 1) Event.inputReq ++ [Event.stdinWrite "42\n"])) ∧
    pyContains "hello" inputRequest = false := by
  refine ⟨?_, by decide⟩
  have hidx : firstNonEmptyIdx (pre ++ "42" :: rest) = some (pre.length, "42") :=
    firstNonEmptyIdx_empties pre hpre "42" (by decide) rest
  have h1 : pyContains "hello<inputRequest>" inputRequest = true := by decide
  have h2 : pyReplaceAll "hello<inputRequest>" inputRequest "" = "hello" := by decide
  have h3 : ¬("hello<inputRequest>" : String) = "" := by decide
  have h4 : ¬("hello" : String) = "" := by decide
  simp [write_contents, h1, h2, h3, h4, hidx]

/-- C2 witness: two empty callback answers before `"42"`. -/
theorem write_contents_input_request_witness :
    write_contents ⟨"", "hello<inputRequest>", ["", ""] ++ "42" :: ["later"]⟩ =
      some (Event.stdoutEv "hello" ::
        (List.replicate (2 + 1) Event.inputReq ++ [Event.stdinWrite "42\n"])) ∧
    pyContains "hello" inputRequest = false :=
  write_contents_input_request ["", ""] ["later"] (by decide)
